import Mathlib

/-!
Shallow embedding of the WiCAN BLE client (src/main.rs) and proofs about it.

The program talks to a BLE peripheral through the platform stack (bluer):
every platform call is modelled by an oracle recorded in an environment
record, and each embedded function returns its result together with the
list of externally visible effects it performed, in order.

The payload decoding pipeline (String::from_utf8, str::trim_end,
serde_json::from_str::<WicanResponse>) is embedded executably: a strict
UTF-8 decoder, Rust's Unicode-whitespace trim, a JSON text parser and the
serde-derived field decoder with its aliases.
-/

/-- A JSON numeral's exact value, as mantissa times ten to the exp10
power.  The program never computes with the parsed numbers — it only
passes them through to the outbound reading — so the exact decimal
value stands in for the f32 the source parses into. -/
structure JNum where
  mantissa : Int
  exp10 : Int
deriving Repr, DecidableEq, Inhabited

/-- JSON values, as produced by a serde_json parse.  Object fields keep
their textual order and possible duplicates, since serde's derived struct
deserializer streams over them. -/
inductive JVal where
  | null : JVal
  | bool (b : Bool) : JVal
  | num (q : JNum) : JVal
  | str (s : String) : JVal
  | arr (xs : List JVal) : JVal
  | obj (fields : List (String × JVal)) : JVal
deriving Repr, BEq, Inhabited

/-- Strict UTF-8 decoding of a byte sequence into characters, rejecting
continuation errors, overlong forms, surrogates and values above 0x10FFFF,
exactly as Rust's String::from_utf8 does. -/
def utf8DecodeAux : List Nat → Option (List Char)
  | [] => some []
  | b0 :: rest =>
    if b0 < 0x80 then
      (utf8DecodeAux rest).map (fun cs => Char.ofNat b0 :: cs)
    else if b0 < 0xC2 then none
    else if b0 < 0xE0 then
      match rest with
      | b1 :: rest1 =>
        if 0x80 ≤ b1 ∧ b1 < 0xC0 then
          (utf8DecodeAux rest1).map
            (fun cs => Char.ofNat ((b0 - 0xC0) * 0x40 + (b1 - 0x80)) :: cs)
        else none
      | [] => none
    else if b0 < 0xF0 then
      match rest with
      | b1 :: b2 :: rest2 =>
        if (if b0 = 0xE0 then 0xA0 else 0x80) ≤ b1 ∧
            b1 < (if b0 = 0xED then 0xA0 else 0xC0) ∧
            0x80 ≤ b2 ∧ b2 < 0xC0 then
          (utf8DecodeAux rest2).map
            (fun cs =>
              Char.ofNat ((b0 - 0xE0) * 0x1000 + (b1 - 0x80) * 0x40 + (b2 - 0x80)) :: cs)
        else none
      | _ => none
    else if b0 < 0xF5 then
      match rest with
      | b1 :: b2 :: b3 :: rest3 =>
        if (if b0 = 0xF0 then 0x90 else 0x80) ≤ b1 ∧
            b1 < (if b0 = 0xF4 then 0x90 else 0xC0) ∧
            0x80 ≤ b2 ∧ b2 < 0xC0 ∧ 0x80 ≤ b3 ∧ b3 < 0xC0 then
          (utf8DecodeAux rest3).map
            (fun cs =>
              Char.ofNat ((b0 - 0xF0) * 0x40000 + (b1 - 0x80) * 0x1000 +
                (b2 - 0x80) * 0x40 + (b3 - 0x80)) :: cs)
        else none
      | _ => none
    else none

/-- Rust String::from_utf8, with failure as none. -/
def utf8Decode (bs : List Nat) : Option String :=
  (utf8DecodeAux bs).map (fun cs => String.mk cs)

/-- Rust char::is_whitespace: the Unicode White_Space property. -/
def isRustWhitespace (c : Char) : Bool :=
  let n := c.toNat
  (0x09 ≤ n && n ≤ 0x0D) || n = 0x20 || n = 0x85 || n = 0xA0 || n = 0x1680 ||
    (0x2000 ≤ n && n ≤ 0x200A) || n = 0x2028 || n = 0x2029 || n = 0x202F ||
    n = 0x205F || n = 0x3000

/-- Rust str::trim_end: drop trailing Unicode whitespace. -/
def rustTrimEnd (s : String) : String :=
  String.mk ((s.data.reverse.dropWhile isRustWhitespace).reverse)

/-- The whitespace serde_json skips between JSON tokens. -/
def isJsonWs (c : Char) : Bool :=
  c = ' ' || c = '\t' || c = '\n' || c = '\r'

/-- Skip inter-token whitespace. -/
def skipWs (l : List Char) : List Char :=
  l.dropWhile isJsonWs

/-- Value of a decimal digit character, none for other characters. -/
def digitVal (c : Char) : Option Nat :=
  if '0' ≤ c ∧ c ≤ '9' then some (c.toNat - '0'.toNat) else none

/-- Longest prefix of decimal digits, with the rest of the input. -/
def takeDigits : List Char → List Nat × List Char
  | [] => ([], [])
  | c :: rest =>
    match digitVal c with
    | some d =>
      let p := takeDigits rest
      (d :: p.1, p.2)
    | none => ([], c :: rest)

/-- Decimal digit list to the natural number it denotes. -/
def digitsToNat (ds : List Nat) : Nat :=
  ds.foldl (fun a d => a * 10 + d) 0

/-- Exact value of a JSON numeral with sign, integer part, fraction
digits and decimal exponent: the digits as one integer mantissa, the
exponent shifted left by the number of fraction digits. -/
def mkNum (neg : Bool) (ip : Nat) (fds : List Nat) (ex : Int) : JNum :=
  let m : Nat := fds.foldl (fun a d => a * 10 + d) ip
  { mantissa := if neg then -(m : Int) else (m : Int),
    exp10 := ex - (fds.length : Int) }

/-- Fraction and exponent suffix of a JSON numeral, after its integer part. -/
def parseNumTail (neg : Bool) (ip : Nat) (l : List Char) :
    Except String (JNum × List Char) :=
  let p :=
    match l with
    | '.' :: r =>
      let q := takeDigits r
      (q.1, q.2, !q.1.isEmpty)
    | _ => ([], l, true)
  if !p.2.2 then Except.error "invalid number" else
  match p.2.1 with
  | c :: r3 =>
    if c = 'e' ∨ c = 'E' then
      let q :=
        match r3 with
        | '+' :: rr => ((1 : Int), rr)
        | '-' :: rr => ((-1 : Int), rr)
        | _ => ((1 : Int), r3)
      let e := takeDigits q.2
      if e.1.isEmpty then Except.error "invalid number"
      else Except.ok (mkNum neg ip p.1 (q.1 * (digitsToNat e.1 : Int)), e.2)
    else Except.ok (mkNum neg ip p.1 0, c :: r3)
  | [] => Except.ok (mkNum neg ip p.1 0, [])

/-- A JSON numeral: optional minus, `0` or a nonzero-led digit run, then an
optional fraction and exponent.  Stops at the first character that cannot
extend the numeral, like serde_json's scanner. -/
def parseNumber (l : List Char) : Except String (JNum × List Char) :=
  let p :=
    match l with
    | '-' :: r => (true, r)
    | _ => (false, l)
  match p.2 with
  | '0' :: r1 => parseNumTail p.1 0 r1
  | c :: r1 =>
    match digitVal c with
    | some d =>
      let q := takeDigits r1
      parseNumTail p.1 (digitsToNat (d :: q.1)) q.2
    | none => Except.error "invalid number"
  | [] => Except.error "EOF while parsing a value"

/-- Value of a hexadecimal digit character. -/
def hexVal (c : Char) : Option Nat :=
  if '0' ≤ c ∧ c ≤ '9' then some (c.toNat - '0'.toNat)
  else if 'a' ≤ c ∧ c ≤ 'f' then some (c.toNat - 'a'.toNat + 10)
  else if 'A' ≤ c ∧ c ≤ 'F' then some (c.toNat - 'A'.toNat + 10)
  else none

/-- Four hex digits as a code unit. -/
def hex4 (a b c d : Char) : Option Nat :=
  match hexVal a, hexVal b, hexVal c, hexVal d with
  | some x, some y, some z, some w => some (((x * 16 + y) * 16 + z) * 16 + w)
  | _, _, _, _ => none

/-- Body of a JSON string after the opening quote: characters up to the
closing quote, with the standard escapes, u-escapes and surrogate pairs,
rejecting raw control characters and lone surrogates as serde_json does.
Returns the decoded characters and the input after the closing quote. -/
def parseStringBody : List Char → Option (List Char × List Char)
  | [] => none
  | '"' :: rest => some ([], rest)
  | '\\' :: 'u' :: h1 :: h2 :: h3 :: h4 :: rest =>
    match hex4 h1 h2 h3 h4 with
    | none => none
    | some n =>
      if 0xD800 ≤ n ∧ n ≤ 0xDBFF then
        match rest with
        | '\\' :: 'u' :: g1 :: g2 :: g3 :: g4 :: rest2 =>
          match hex4 g1 g2 g3 g4 with
          | none => none
          | some n2 =>
            if 0xDC00 ≤ n2 ∧ n2 ≤ 0xDFFF then
              (parseStringBody rest2).map
                (fun p =>
                  (Char.ofNat (0x10000 + (n - 0xD800) * 0x400 + (n2 - 0xDC00)) :: p.1,
                    p.2))
            else none
        | _ => none
      else if 0xDC00 ≤ n ∧ n ≤ 0xDFFF then none
      else (parseStringBody rest).map (fun p => (Char.ofNat n :: p.1, p.2))
  | '\\' :: e :: rest =>
    let c : Option Char :=
      if e = '"' then some '"'
      else if e = '\\' then some '\\'
      else if e = '/' then some '/'
      else if e = 'b' then some (Char.ofNat 8)
      else if e = 'f' then some (Char.ofNat 12)
      else if e = 'n' then some '\n'
      else if e = 'r' then some '\r'
      else if e = 't' then some '\t'
      else none
    match c with
    | none => none
    | some ch => (parseStringBody rest).map (fun p => (ch :: p.1, p.2))
  | c :: rest =>
    if c.toNat < 0x20 then none
    else (parseStringBody rest).map (fun p => (c :: p.1, p.2))

mutual

/-- One JSON value at the head of the input (leading whitespace allowed),
with the remaining input.  Fuel bounds the recursion; the top-level entry
point supplies more fuel than any input can consume. -/
def parseVal : Nat → List Char → Except String (JVal × List Char)
  | 0, _ => Except.error "recursion limit exceeded"
  | fuel + 1, l =>
    match skipWs l with
    | [] => Except.error "EOF while parsing a value"
    | 'n' :: 'u' :: 'l' :: 'l' :: r => Except.ok (JVal.null, r)
    | 't' :: 'r' :: 'u' :: 'e' :: r => Except.ok (JVal.bool true, r)
    | 'f' :: 'a' :: 'l' :: 's' :: 'e' :: r => Except.ok (JVal.bool false, r)
    | '"' :: r =>
      match parseStringBody r with
      | none => Except.error "invalid string"
      | some p => Except.ok (JVal.str (String.mk p.1), p.2)
    | '[' :: r =>
      match parseArrItems fuel (skipWs r) with
      | Except.error e => Except.error e
      | Except.ok p => Except.ok (JVal.arr p.1, p.2)
    | '{' :: r =>
      match parseObjItems fuel (skipWs r) with
      | Except.error e => Except.error e
      | Except.ok p => Except.ok (JVal.obj p.1, p.2)
    | c :: r =>
      if c = '-' ∨ (digitVal c).isSome then
        match parseNumber (c :: r) with
        | Except.error e => Except.error e
        | Except.ok p => Except.ok (JVal.num p.1, p.2)
      else Except.error "expected value"

/-- Array elements after the opening bracket (whitespace already skipped):
either an immediate close or comma-separated values. -/
def parseArrItems : Nat → List Char → Except String (List JVal × List Char)
  | 0, _ => Except.error "recursion limit exceeded"
  | fuel + 1, l =>
    match l with
    | ']' :: r => Except.ok ([], r)
    | _ =>
      match parseVal fuel l with
      | Except.error e => Except.error e
      | Except.ok p =>
        match skipWs p.2 with
        | ',' :: r2 =>
          match parseArrItems fuel (skipWs r2) with
          | Except.error e => Except.error e
          | Except.ok q => Except.ok (p.1 :: q.1, q.2)
        | ']' :: r2 => Except.ok ([p.1], r2)
        | _ => Except.error "expected comma or bracket"

/-- Object members after the opening brace (whitespace already skipped):
either an immediate close or comma-separated string keys with values. -/
def parseObjItems : Nat → List Char → Except String (List (String × JVal) × List Char)
  | 0, _ => Except.error "recursion limit exceeded"
  | fuel + 1, l =>
    match l with
    | '}' :: r => Except.ok ([], r)
    | '"' :: r =>
      match parseStringBody r with
      | none => Except.error "invalid string"
      | some kp =>
        match skipWs kp.2 with
        | ':' :: r2 =>
          match parseVal fuel r2 with
          | Except.error e => Except.error e
          | Except.ok vp =>
            match skipWs vp.2 with
            | ',' :: r3 =>
              match parseObjItems fuel (skipWs r3) with
              | Except.error e => Except.error e
              | Except.ok q => Except.ok ((String.mk kp.1, vp.1) :: q.1, q.2)
            | '}' :: r3 => Except.ok ([(String.mk kp.1, vp.1)], r3)
            | _ => Except.error "expected comma or brace"
        | _ => Except.error "expected colon"
    | _ => Except.error "key must be a string"

end

/-- serde_json text parsing: one complete JSON value, then only trailing
whitespace. -/
def parseJsonText (s : String) : Except String JVal :=
  match parseVal (2 * s.data.length + 8) s.data with
  | Except.error e => Except.error e
  | Except.ok p =>
    if (skipWs p.2).isEmpty then Except.ok p.1
    else Except.error "trailing characters"

/-- Accumulator for serde's streaming struct deserializer of WicanResponse:
soc (f32, required), soc_d and outdoor_temperature (Option of f32).  An
option-typed field records whether it was seen at all (serde rejects a
duplicate even of an option field) and, when seen, whether it was null. -/
structure WicanAcc where
  soc : Option JNum
  soc_d : Option (Option JNum)
  outdoor_temperature : Option (Option JNum)
deriving Repr, DecidableEq

/-- Streaming pass over an object's entries, as serde's derived
Deserialize for WicanResponse does: each field accepts its Rust name or
its serde alias, duplicates are rejected, unknown keys are skipped. -/
def wicanFold : List (String × JVal) → WicanAcc → Except String WicanAcc
  | [], acc => Except.ok acc
  | (k, v) :: rest, acc =>
    if k = "soc" ∨ k = "SOC" then
      match acc.soc with
      | some _ => Except.error "duplicate field soc"
      | none =>
        match v with
        | JVal.num q => wicanFold rest { acc with soc := some q }
        | _ => Except.error "invalid type for field soc"
    else if k = "soc_d" ∨ k = "SOC_D" then
      match acc.soc_d with
      | some _ => Except.error "duplicate field soc_d"
      | none =>
        match v with
        | JVal.num q => wicanFold rest { acc with soc_d := some (some q) }
        | JVal.null => wicanFold rest { acc with soc_d := some none }
        | _ => Except.error "invalid type for field soc_d"
    else if k = "outdoor_temperature" ∨ k = "OUTDOOR_TEMPERATURE" then
      match acc.outdoor_temperature with
      | some _ => Except.error "duplicate field outdoor_temperature"
      | none =>
        match v with
        | JVal.num q => wicanFold rest { acc with outdoor_temperature := some (some q) }
        | JVal.null => wicanFold rest { acc with outdoor_temperature := some none }
        | _ => Except.error "invalid type for field outdoor_temperature"
    else wicanFold rest acc

/-- The decoded WiCAN response struct (f32 values modelled as the exact
decimal values of their JSON numerals; the program never computes with
them, it only passes them through). -/
structure WicanResponse where
  soc : JNum
  soc_d : Option JNum
  outdoor_temperature : Option JNum
deriving Repr, DecidableEq

/-- serde's derived Deserialize for WicanResponse applied to a parsed
JSON value: must be an object, soc is required under either accepted
name, the option fields default to none. -/
def deserializeWican (j : JVal) : Except String WicanResponse :=
  match j with
  | JVal.obj entries =>
    match wicanFold entries ⟨none, none, none⟩ with
    | Except.error e => Except.error e
    | Except.ok acc =>
      match acc.soc with
      | none => Except.error "missing field soc"
      | some s =>
        Except.ok ⟨s, acc.soc_d.getD none, acc.outdoor_temperature.getD none⟩
  | _ => Except.error "invalid type: expected struct WicanResponse"

/-- serde_json::from_str::<WicanResponse>. -/
def wicanFromStr (s : String) : Except String WicanResponse :=
  match parseJsonText s with
  | Except.error e => Except.error e
  | Except.ok j => deserializeWican j

/-- The outbound telemetry struct; field defaults mirror Rust's derived
Default (all none). -/
structure BatteryData where
  battery_level_percentage : Option JNum := none
  battery_level_wh : Option Nat := none
  reference_air_density : Option JNum := none
  external_temp_celsius : Option JNum := none
  battery_capacity_wh : Option Nat := none
deriving Repr, DecidableEq

/-- serde serialization of BatteryData to a JSON object: the four
fields marked skip_serializing_if Option::is_none are omitted when none;
battery_capacity_wh is always emitted (null when none). -/
def serializeBatteryData (b : BatteryData) : List (String × JVal) :=
  (match b.battery_level_percentage with
    | none => []
    | some v => [("battery_level_percentage", JVal.num v)]) ++
  (match b.battery_level_wh with
    | none => []
    | some v => [("battery_level_wh", JVal.num ⟨(v : Int), 0⟩)]) ++
  (match b.reference_air_density with
    | none => []
    | some v => [("reference_air_density", JVal.num v)]) ++
  (match b.external_temp_celsius with
    | none => []
    | some v => [("external_temp_celsius", JVal.num v)]) ++
  [("battery_capacity_wh",
    match b.battery_capacity_wh with
    | none => JVal.null
    | some v => JVal.num ⟨(v : Int), 0⟩)]

/-- A GATT characteristic: an identity (to tell equal-UUID characteristics
apart) and its UUID, as a 128-bit number. -/
structure GattChar where
  id : Nat
  uuid : Nat
deriving Repr, DecidableEq

/-- Fixed notify-characteristic UUID 0200dec0-01ef-bc9a-5678-1234deadf0be. -/
def WICAN_NOTIFY_UUID : Nat := 0x0200dec001efbc9a56781234deadf0be

/-- Fixed write-characteristic UUID 0300dec0-01ef-bc9a-5678-1234deadf0be. -/
def WICAN_WRITE_UUID : Nat := 0x0300dec001efbc9a56781234deadf0be

/-- Body of the find_characteristics loop for one characteristic: matching
the notify UUID overwrites the notify slot, else matching the write UUID
overwrites the write slot, else the slots are unchanged. -/
def charStep (acc : Option GattChar × Option GattChar) (c : GattChar) :
    Option GattChar × Option GattChar :=
  if c.uuid = WICAN_NOTIFY_UUID then (some c, acc.2)
  else if c.uuid = WICAN_WRITE_UUID then (acc.1, some c)
  else acc

/-- find_characteristics: walk every service's characteristics in order,
filling the two slots, then require both. -/
def find_characteristics (services : List (List GattChar)) :
    Except String (GattChar × GattChar) :=
  match services.foldl (fun acc svc => svc.foldl charStep acc) (none, none) with
  | (none, _) => Except.error "Could not find the WiCAN notify characteristic."
  | (some _, none) => Except.error "Could not find the WiCAN write characteristic."
  | (some nc, some wc) => Except.ok (nc, wc)

/-- The last element of a list satisfying a predicate, in enumeration
order; used to state what find_characteristics actually returns. -/
def lastWith (p : GattChar → Bool) : List GattChar → Option GattChar
  | [] => none
  | c :: rest =>
    match lastWith p rest with
    | some r => some r
    | none => if p c then some c else none

/-- Outcome of the select race between the response timer and the
notification stream: the timer fires first, the stream ends first, or a
payload arrives first. -/
inductive NotifOutcome where
  | timeout
  | streamEnd
  | payload (bytes : List Nat)
deriving Repr, DecidableEq

/-- Oracle outcomes of the platform calls fetch_data makes. -/
structure FetchEnv where
  services : List (List GattChar)
  notifyOk : Bool
  writeOk : Bool
  outcome : NotifOutcome

/-- Externally visible BLE effects of fetch_data, in order. -/
inductive FetchEvent where
  | subscribe
  | write (payload : List Nat)
deriving Repr, DecidableEq

/-- fetch_data failures (each an anyhow error in the source; decode
errors keep which pipeline stage failed, via its context message). -/
inductive FetchErr where
  | charsNotFound (msg : String)
  | notifyFailed
  | writeFailed
  | utf8Error
  | jsonError (msg : String)
deriving Repr, DecidableEq

/-- The command payload b"autopid -d\n". -/
def autopidCmd : List Nat :=
  [0x61, 0x75, 0x74, 0x6f, 0x70, 0x69, 0x64, 0x20, 0x2d, 0x64, 0x0a]

/-- UTF-8 bytes of an ASCII string, for concrete payloads. -/
def asciiBytes (s : String) : List Nat :=
  s.data.map Char.toNat

/-- The payload decoding pipeline of fetch_data: String::from_utf8, then
trim_end, then serde_json::from_str::<WicanResponse>. -/
def decodeWicanBytes (bs : List Nat) : Except FetchErr WicanResponse :=
  match utf8Decode bs with
  | none => Except.error FetchErr.utf8Error
  | some s =>
    match wicanFromStr (rustTrimEnd s) with
    | Except.error e => Except.error (FetchErr.jsonError e)
    | Except.ok w => Except.ok w

/-- The BatteryData literal fetch_data builds: percentage is
soc_d.unwrap_or(soc), the temperature passes through, the capacity is the
configured constant, every other field keeps its Default (none). -/
def mkBatteryData (w : WicanResponse) (vehicle_battery_capacity : Nat) : BatteryData :=
  { battery_level_percentage := some (w.soc_d.getD w.soc),
    external_temp_celsius := w.outdoor_temperature,
    battery_capacity_wh := some vehicle_battery_capacity }

/-- fetch_data: resolve the characteristic pair, subscribe to
notifications, write the command, then race the timer against the first
notification; decode a delivered payload, and treat timeout or stream end
as a successful no-reading cycle. -/
def fetch_data (env : FetchEnv) (vehicle_battery_capacity : Nat) :
    Except FetchErr (Option BatteryData) × List FetchEvent :=
  match find_characteristics env.services with
  | Except.error e => (Except.error (FetchErr.charsNotFound e), [])
  | Except.ok _ =>
    if env.notifyOk then
      let tr := [FetchEvent.subscribe, FetchEvent.write autopidCmd]
      if env.writeOk then
        match env.outcome with
        | NotifOutcome.timeout => (Except.ok none, tr)
        | NotifOutcome.streamEnd => (Except.ok none, tr)
        | NotifOutcome.payload bs =>
          match decodeWicanBytes bs with
          | Except.error e => (Except.error e, tr)
          | Except.ok w =>
            (Except.ok (some (mkBatteryData w vehicle_battery_capacity)), tr)
      else (Except.error FetchErr.writeFailed, tr)
    else (Except.error FetchErr.notifyFailed, [])

/-- Adapter discovery events as seen by the find_device loop. -/
inductive DiscEvent where
  | deviceAdded (addr : Nat)
  | other
deriving Repr, DecidableEq

/-- Oracle outcomes of the platform calls find_device makes: whether
adapter.device succeeds, what the is_services_resolved query returns
(an error, or a Boolean), whether discover_devices starts, and the
discovery events delivered before the timeout fires. -/
structure LocatorEnv where
  deviceOk : Bool
  servicesResolved : Except Unit Bool
  discoverOk : Bool
  events : List DiscEvent

/-- First device-added event matching the target address among the events
delivered before the timeout. -/
def firstMatch : List DiscEvent → Nat → Option Nat
  | [], _ => none
  | DiscEvent.deviceAdded addr :: rest, mac =>
    if addr = mac then some addr else firstMatch rest mac
  | DiscEvent.other :: rest, mac => firstMatch rest mac

/-- find_device: the fast path is taken whenever the is_services_resolved
query returns without error (the source tests only is_ok on the
Result of booleans); otherwise a discovery scan runs until the first
matching device-added event or the timeout.  The second component records
whether a discovery scan was started. -/
def find_device (env : LocatorEnv) (wican_mac_address : Nat) :
    Except String Nat × Bool :=
  if !env.deviceOk then (Except.error "adapter device lookup failed", false)
  else if (match env.servicesResolved with
    | Except.ok _ => true
    | Except.error _ => false) then
    (Except.ok wican_mac_address, false)
  else if !env.discoverOk then (Except.error "discovery failed", true)
  else
    match firstMatch env.events wican_mac_address with
    | some addr => (Except.ok addr, true)
    | none => (Except.error "Scan timed out without finding device.", true)

/-- Oracle outcomes of the platform calls try_pair makes. -/
structure PairEnv where
  isPaired : Except String Bool
  registerOk : Bool
  pairOk : Bool

/-- Externally visible pairing effects, in order. -/
inductive PairEvent where
  | registerAgent
  | pairCall
deriving Repr, DecidableEq

/-- try_pair: if the device reports paired, return at once; otherwise
register the passkey agent and invoke the platform pairing call. -/
def try_pair (env : PairEnv) : Except String Unit × List PairEvent :=
  match env.isPaired with
  | Except.error e => (Except.error e, [])
  | Except.ok true => (Except.ok (), [])
  | Except.ok false =>
    if env.registerOk then
      if env.pairOk then
        (Except.ok (), [PairEvent.registerAgent, PairEvent.pairCall])
      else
        (Except.error "Failed to pair with device",
          [PairEvent.registerAgent, PairEvent.pairCall])
    else (Except.error "agent registration failed", [PairEvent.registerAgent])

/-- connect_to_device failures. -/
inductive ConnErr where
  | findFailed (msg : String)
  | pairFailed (msg : String)
  | isConnectedFailed
  | unpairFailed
  | connectionExhausted (attempts : Nat)
deriving Repr, DecidableEq

/-- Externally visible connection effects, in order. -/
inductive ConnEvent where
  | connectAttempt (i : Nat)
  | sleepSecs (n : Nat)
  | removeDevice
deriving Repr, DecidableEq

/-- Oracle outcomes of the platform calls connect_to_device makes, its
find_device and try_pair sub-calls included. -/
structure ConnectEnv where
  locator : LocatorEnv
  pairing : PairEnv
  isConnected : Except String Bool
  connectOk : Nat → Bool
  removeOk : Bool

/-- The retry loop of connect_to_device, iterating over the index list
0..max_retries (for i in 0..max_retries): attempt a connect; on success
break out; on failure sleep 10 seconds and continue when attempts remain
(i + 1 < max_retries), else call remove_device and fail with the
exhaustion error (or, if the removal call itself fails, with its
wrapped error). -/
def connectLoop (connectOk : Nat → Bool) (removeOk : Bool)
    (max_retries : Nat) : List Nat → Except ConnErr Unit × List ConnEvent
  | [] => (Except.ok (), [])
  | i :: restIdx =>
    if connectOk i then (Except.ok (), [ConnEvent.connectAttempt i])
    else if i + 1 < max_retries then
      let p := connectLoop connectOk removeOk max_retries restIdx
      (p.1, ConnEvent.connectAttempt i :: ConnEvent.sleepSecs 10 :: p.2)
    else if removeOk then
      (Except.error (ConnErr.connectionExhausted max_retries),
        [ConnEvent.connectAttempt i, ConnEvent.removeDevice])
    else
      (Except.error ConnErr.unpairFailed,
        [ConnEvent.connectAttempt i, ConnEvent.removeDevice])

/-- connect_to_device: locate the device, ensure pairing, short-circuit
when already connected, otherwise run the bounded retry loop over
attempt indices 0..max_retries.  The trace lists the connection-stage
effects in order. -/
def connect_to_device (env : ConnectEnv) (wican_mac_address : Nat)
    (max_retries : Nat) : Except ConnErr Nat × List ConnEvent :=
  match (find_device env.locator wican_mac_address).1 with
  | Except.error e => (Except.error (ConnErr.findFailed e), [])
  | Except.ok device =>
    match (try_pair env.pairing).1 with
    | Except.error e => (Except.error (ConnErr.pairFailed e), [])
    | Except.ok _ =>
      match env.isConnected with
      | Except.error _ => (Except.error ConnErr.isConnectedFailed, [])
      | Except.ok true => (Except.ok device, [])
      | Except.ok false =>
        let p := connectLoop env.connectOk env.removeOk max_retries
          (List.range max_retries)
        (p.1.map (fun _ => device), p.2)

/-- Connect attempts on the given indices separated by 10-second sleeps,
with no sleep after the last: the attempt pattern of the retry loop. -/
def interleaveAttempts : List Nat → List ConnEvent
  | [] => []
  | [i] => [ConnEvent.connectAttempt i]
  | i :: j :: rest =>
    ConnEvent.connectAttempt i :: ConnEvent.sleepSecs 10 ::
      interleaveAttempts (j :: rest)

/-- The trace of a run in which every one of the N attempts fails:
attempts 0..N-1 separated by the fixed sleeps, no sleep after the last,
then the pairing removal as the final effect. -/
def failTrace (max_retries : Nat) : List ConnEvent :=
  interleaveAttempts (List.range max_retries) ++ [ConnEvent.removeDevice]

/-- The trace of a run whose first k attempts fail and whose attempt k
succeeds: attempts 0..k separated by the fixed sleeps, ending in the
successful attempt, with no sleep and no removal after it. -/
def succTrace (k : Nat) : List ConnEvent :=
  interleaveAttempts (List.range (k + 1))

/-- The keys serde's derived WicanResponse deserializer recognizes: each
field's Rust name and its serde alias. -/
def wicanKeyRecognized (k : String) : Bool :=
  k = "soc" || k = "SOC" || k = "soc_d" || k = "SOC_D" ||
    k = "outdoor_temperature" || k = "OUTDOOR_TEMPERATURE"

/-- Whether a characteristic carries the notify UUID. -/
def isNotifyChar (c : GattChar) : Bool :=
  decide (c.uuid = WICAN_NOTIFY_UUID)

/-- Whether a characteristic carries the write UUID. -/
def isWriteChar (c : GattChar) : Bool :=
  decide (c.uuid = WICAN_WRITE_UUID)

theorem foldl_charStep_fst (l : List GattChar)
    (acc : Option GattChar × Option GattChar) :
    (l.foldl charStep acc).1 = Option.or (lastWith isNotifyChar l) acc.1 := by
  induction l generalizing acc with
  | nil => rfl
  | cons c rest ih =>
    rw [List.foldl_cons, ih, lastWith]
    cases hl : lastWith isNotifyChar rest with
    | some r => rfl
    | none =>
      by_cases h1 : c.uuid = WICAN_NOTIFY_UUID
      · simp [charStep, isNotifyChar, h1]
      · by_cases h2 : c.uuid = WICAN_WRITE_UUID
        · simp [charStep, isNotifyChar, h1, h2,
            (show WICAN_WRITE_UUID ≠ WICAN_NOTIFY_UUID by decide)]
        · simp [charStep, isNotifyChar, h1, h2]

theorem foldl_charStep_snd (l : List GattChar)
    (acc : Option GattChar × Option GattChar) :
    (l.foldl charStep acc).2 = Option.or (lastWith isWriteChar l) acc.2 := by
  induction l generalizing acc with
  | nil => rfl
  | cons c rest ih =>
    rw [List.foldl_cons, ih, lastWith]
    cases hl : lastWith isWriteChar rest with
    | some r => rfl
    | none =>
      by_cases h1 : c.uuid = WICAN_NOTIFY_UUID
      · simp [charStep, isWriteChar, h1,
          (show WICAN_NOTIFY_UUID ≠ WICAN_WRITE_UUID by decide)]
      · by_cases h2 : c.uuid = WICAN_WRITE_UUID
        · simp [charStep, isWriteChar, h1, h2,
            (show WICAN_WRITE_UUID ≠ WICAN_NOTIFY_UUID by decide)]
        · simp [charStep, isWriteChar, h1, h2]

theorem foldl_nested_eq_flatten (services : List (List GattChar))
    (acc : Option GattChar × Option GattChar) :
    services.foldl (fun a svc => svc.foldl charStep a) acc =
      services.flatten.foldl charStep acc := by
  induction services generalizing acc with
  | nil => rfl
  | cons svc rest ih =>
    rw [List.foldl_cons, List.flatten_cons, List.foldl_append, ih]

/-- C1 (code bug): for a device the adapter already knows whose services
are NOT fully resolved — the is_services_resolved query succeeds and
answers false — find_device still takes the cached fast path and starts
no discovery scan (second component false), even though a matching
discovery event would be available.  The source tests only is_ok on the
query's Result of booleans, so the Boolean answer is ignored; the claim
(and the spec's scan-avoidance property, read as an exactly-when) demands
a scan in this situation. -/
theorem find_device_skips_scan_when_services_unresolved :
    find_device ⟨true, Except.ok false, true, [DiscEvent.deviceAdded 7]⟩ 7 =
      (Except.ok 7, false) := rfl

/-- C2 counterexample: in a single-service tree whose characteristics are,
in enumeration order, two notify-UUID characteristics (ids 0 then 1) and a
write characteristic (id 2), find_characteristics returns the notify
characteristic with id 1 — the last match — not the first one (id 0) the
claim promises. -/
theorem find_characteristics_returns_last_not_first :
    find_characteristics
        [[⟨0, WICAN_NOTIFY_UUID⟩, ⟨1, WICAN_NOTIFY_UUID⟩, ⟨2, WICAN_WRITE_UUID⟩]] =
      Except.ok (⟨1, WICAN_NOTIFY_UUID⟩, ⟨2, WICAN_WRITE_UUID⟩) ∧
    (⟨1, WICAN_NOTIFY_UUID⟩ : GattChar) ≠ ⟨0, WICAN_NOTIFY_UUID⟩ :=
  ⟨rfl, by decide⟩

/-- C2 amended: when find_characteristics succeeds, each returned
characteristic is the LAST one in enumeration order (services in order,
characteristics within each service in order) carrying the corresponding
UUID: every match overwrites the slot, so the last match wins per UUID. -/
theorem find_characteristics_last_match_wins (services : List (List GattChar))
    (n w : GattChar) (h : find_characteristics services = Except.ok (n, w)) :
    lastWith isNotifyChar services.flatten = some n ∧
    lastWith isWriteChar services.flatten = some w := by
  have h1 := foldl_charStep_fst services.flatten (none, none)
  have h2 := foldl_charStep_snd services.flatten (none, none)
  rw [Option.or_none] at h1 h2
  unfold find_characteristics at h
  rw [foldl_nested_eq_flatten] at h
  rcases hF : services.flatten.foldl charStep (none, none) with ⟨f1, f2⟩
  rw [hF] at h h1 h2
  cases f1 with
  | none => simp at h
  | some nc =>
    cases f2 with
    | none => simp at h
    | some wc =>
      simp only [Except.ok.injEq, Prod.mk.injEq] at h
      simp only [Prod.fst] at h1
      simp only [Prod.snd] at h2
      exact ⟨h.1 ▸ h1.symm, h.2 ▸ h2.symm⟩

/-- C2 amended, witnessed at a concrete tree: two notify characteristics
(ids 0, 3) and two write characteristics (ids 2, 4); the resolver returns
ids 3 and 4, the last matches. -/
theorem find_characteristics_last_match_wins_witness :
    lastWith isNotifyChar
        ([[⟨0, WICAN_NOTIFY_UUID⟩, ⟨3, WICAN_NOTIFY_UUID⟩],
          [⟨2, WICAN_WRITE_UUID⟩, ⟨4, WICAN_WRITE_UUID⟩]] : List (List GattChar)).flatten =
      some ⟨3, WICAN_NOTIFY_UUID⟩ ∧
    lastWith isWriteChar
        ([[⟨0, WICAN_NOTIFY_UUID⟩, ⟨3, WICAN_NOTIFY_UUID⟩],
          [⟨2, WICAN_WRITE_UUID⟩, ⟨4, WICAN_WRITE_UUID⟩]] : List (List GattChar)).flatten =
      some ⟨4, WICAN_WRITE_UUID⟩ :=
  find_characteristics_last_match_wins
    [[⟨0, WICAN_NOTIFY_UUID⟩, ⟨3, WICAN_NOTIFY_UUID⟩],
      [⟨2, WICAN_WRITE_UUID⟩, ⟨4, WICAN_WRITE_UUID⟩]]
    ⟨3, WICAN_NOTIFY_UUID⟩ ⟨4, WICAN_WRITE_UUID⟩ rfl

/-- C9: for a device that reports itself paired, try_pair returns success
immediately, with no agent registration and no platform pairing call in
its effect trace. -/
theorem try_pair_idempotent_when_paired (env : PairEnv)
    (h : env.isPaired = Except.ok true) :
    try_pair env = (Except.ok (), []) := by
  simp [try_pair, h]

/-- C9 witnessed at a concrete environment (pairing oracle says paired;
the agent-registration and pair-call oracles are set to fail, so any such
call would be visible as a failure). -/
theorem try_pair_idempotent_when_paired_witness :
    try_pair ⟨Except.ok true, false, false⟩ = (Except.ok (), []) :=
  try_pair_idempotent_when_paired ⟨Except.ok true, false, false⟩ rfl

/-- C5: whenever the delivered payload decodes to a WicanResponse w, the
reading maps percentage to the derived state-of-charge when present and
to the raw one otherwise (soc_d.unwrap_or(soc)), capacity to the
externally configured constant, and the outdoor temperature through
unchanged (absent exactly when absent in the response). -/
theorem fetch_data_mapping_correct (env : FetchEnv) (cap : Nat)
    (pr : GattChar × GattChar) (bs : List Nat) (w : WicanResponse)
    (hc : find_characteristics env.services = Except.ok pr)
    (hn : env.notifyOk = true) (hw : env.writeOk = true)
    (ho : env.outcome = NotifOutcome.payload bs)
    (hd : decodeWicanBytes bs = Except.ok w) :
    (fetch_data env cap).1 =
      Except.ok (some
        { battery_level_percentage := some (w.soc_d.getD w.soc),
          battery_level_wh := none,
          reference_air_density := none,
          external_temp_celsius := w.outdoor_temperature,
          battery_capacity_wh := some cap }) := by
  simp [fetch_data, hc, hn, hw, ho, hd, mkBatteryData]

/-- C5 witnessed on the spec's preference example: payload
SOC 55.0, SOC_D 58.2 yields percentage 58.2 (mantissa 582, exponent -1),
capacity the configured 100 and no temperature. -/
theorem fetch_data_mapping_correct_witness :
    (fetch_data ⟨[[⟨0, WICAN_NOTIFY_UUID⟩, ⟨1, WICAN_WRITE_UUID⟩]], true, true,
        NotifOutcome.payload (asciiBytes "\x7b\"SOC\": 55.0, \"SOC_D\": 58.2\x7d")⟩ 100).1 =
      Except.ok (some
        { battery_level_percentage := some ⟨582, -1⟩,
          battery_level_wh := none,
          reference_air_density := none,
          external_temp_celsius := none,
          battery_capacity_wh := some 100 }) :=
  fetch_data_mapping_correct _ 100 (⟨0, WICAN_NOTIFY_UUID⟩, ⟨1, WICAN_WRITE_UUID⟩)
    (asciiBytes "\x7b\"SOC\": 55.0, \"SOC_D\": 58.2\x7d") ⟨⟨550, -1⟩, some ⟨582, -1⟩, none⟩
    rfl rfl rfl rfl (by rfl)

/-- C6: when the timer wins the race (no notification before the wait
elapses) or the notification stream ends without a value, fetch_data
returns success with no reading — no decode error, no error at all. -/
theorem fetch_data_timeout_returns_none (env : FetchEnv) (cap : Nat)
    (pr : GattChar × GattChar)
    (hc : find_characteristics env.services = Except.ok pr)
    (hn : env.notifyOk = true) (hw : env.writeOk = true)
    (ho : env.outcome = NotifOutcome.timeout ∨ env.outcome = NotifOutcome.streamEnd) :
    (fetch_data env cap).1 = Except.ok none := by
  rcases ho with h | h <;> simp [fetch_data, hc, hn, hw, h]

/-- C6 witnessed at a concrete environment, in both the timer-wins and the
stream-end cases. -/
theorem fetch_data_timeout_returns_none_witness :
    (fetch_data ⟨[[⟨0, WICAN_NOTIFY_UUID⟩, ⟨1, WICAN_WRITE_UUID⟩]], true, true,
        NotifOutcome.timeout⟩ 100).1 = Except.ok none ∧
    (fetch_data ⟨[[⟨0, WICAN_NOTIFY_UUID⟩, ⟨1, WICAN_WRITE_UUID⟩]], true, true,
        NotifOutcome.streamEnd⟩ 100).1 = Except.ok none :=
  ⟨fetch_data_timeout_returns_none _ 100 (⟨0, WICAN_NOTIFY_UUID⟩, ⟨1, WICAN_WRITE_UUID⟩)
      rfl rfl rfl (Or.inl rfl),
    fetch_data_timeout_returns_none _ 100 (⟨0, WICAN_NOTIFY_UUID⟩, ⟨1, WICAN_WRITE_UUID⟩)
      rfl rfl rfl (Or.inr rfl)⟩

/-- C8: the command payload is the literal ASCII bytes of autopid -d with
a trailing newline; every possible effect trace of fetch_data is either
empty (the subscription was never established: characteristic resolution
or the subscription call failed, so no exchange began) or exactly
subscribe followed by one write of that payload — so the subscription
always precedes the single write; and whenever the subscription is
established, exactly that trace occurs. -/
theorem fetch_data_subscribe_before_single_write (env : FetchEnv) (cap : Nat) :
    autopidCmd = "autopid -d\n".data.map Char.toNat ∧
    ((fetch_data env cap).2 = [] ∨
      (fetch_data env cap).2 = [FetchEvent.subscribe, FetchEvent.write autopidCmd]) ∧
    (∀ pr, find_characteristics env.services = Except.ok pr → env.notifyOk = true →
      (fetch_data env cap).2 = [FetchEvent.subscribe, FetchEvent.write autopidCmd]) := by
  refine ⟨by decide, ?_, ?_⟩
  · cases h : find_characteristics env.services with
    | error e => left; simp [fetch_data, h]
    | ok pr =>
      cases hn : env.notifyOk with
      | false => left; simp [fetch_data, h, hn]
      | true =>
        cases hw : env.writeOk with
        | false => right; simp [fetch_data, h, hn, hw]
        | true =>
          cases ho : env.outcome with
          | timeout => right; simp [fetch_data, h, hn, hw, ho]
          | streamEnd => right; simp [fetch_data, h, hn, hw, ho]
          | payload bs =>
            cases hd : decodeWicanBytes bs with
            | error e => right; simp [fetch_data, h, hn, hw, ho, hd]
            | ok w => right; simp [fetch_data, h, hn, hw, ho, hd]
  · intro pr hc hn
    cases hw : env.writeOk with
    | false => simp [fetch_data, hc, hn, hw]
    | true =>
      cases ho : env.outcome with
      | timeout => simp [fetch_data, hc, hn, hw, ho]
      | streamEnd => simp [fetch_data, hc, hn, hw, ho]
      | payload bs =>
        cases hd : decodeWicanBytes bs with
        | error e => simp [fetch_data, hc, hn, hw, ho, hd]
        | ok w => simp [fetch_data, hc, hn, hw, ho, hd]

/-- C8 witnessed at a concrete environment with an established
subscription: the trace is exactly subscribe then the single write. -/
theorem fetch_data_subscribe_before_single_write_witness :
    (fetch_data ⟨[[⟨0, WICAN_NOTIFY_UUID⟩, ⟨1, WICAN_WRITE_UUID⟩]], true, true,
        NotifOutcome.timeout⟩ 100).2 =
      [FetchEvent.subscribe, FetchEvent.write autopidCmd] :=
  (fetch_data_subscribe_before_single_write
      ⟨[[⟨0, WICAN_NOTIFY_UUID⟩, ⟨1, WICAN_WRITE_UUID⟩]], true, true,
        NotifOutcome.timeout⟩ 100).2.2
    (⟨0, WICAN_NOTIFY_UUID⟩, ⟨1, WICAN_WRITE_UUID⟩) rfl rfl

/-- C10: every reading a successful exchange produces has
battery_level_wh and reference_air_density absent (and therefore omitted
from the serialized sink object), battery_level_percentage present, and
battery_capacity_wh present and equal to the configured capacity. -/
theorem fetch_data_frame_fields (env : FetchEnv) (cap : Nat) (bd : BatteryData)
    (h : (fetch_data env cap).1 = Except.ok (some bd)) :
    bd.battery_level_wh = none ∧ bd.reference_air_density = none ∧
    bd.battery_level_percentage.isSome = true ∧
    bd.battery_capacity_wh = some cap ∧
    "battery_level_wh" ∉ (serializeBatteryData bd).map Prod.fst ∧
    "reference_air_density" ∉ (serializeBatteryData bd).map Prod.fst := by
  cases hc : find_characteristics env.services with
  | error e => simp [fetch_data, hc] at h
  | ok pr =>
    cases hn : env.notifyOk with
    | false => simp [fetch_data, hc, hn] at h
    | true =>
      cases hw : env.writeOk with
      | false => simp [fetch_data, hc, hn, hw] at h
      | true =>
        cases ho : env.outcome with
        | timeout => simp [fetch_data, hc, hn, hw, ho] at h
        | streamEnd => simp [fetch_data, hc, hn, hw, ho] at h
        | payload bs =>
          cases hd : decodeWicanBytes bs with
          | error e => simp [fetch_data, hc, hn, hw, ho, hd] at h
          | ok w =>
            simp [fetch_data, hc, hn, hw, ho, hd] at h
            subst h
            cases ht : w.outdoor_temperature <;>
              simp [mkBatteryData, serializeBatteryData, ht]

/-- C10 witnessed on a decoded reading with a temperature present: only
percentage, capacity and temperature carry data, the two always-absent
fields are omitted from the serialization. -/
theorem fetch_data_frame_fields_witness :
    (mkBatteryData ⟨⟨55, 0⟩, none, some ⟨-2, 0⟩⟩ 77).battery_level_wh = none ∧
    (mkBatteryData ⟨⟨55, 0⟩, none, some ⟨-2, 0⟩⟩ 77).reference_air_density = none ∧
    (mkBatteryData ⟨⟨55, 0⟩, none, some ⟨-2, 0⟩⟩ 77).battery_level_percentage.isSome = true ∧
    (mkBatteryData ⟨⟨55, 0⟩, none, some ⟨-2, 0⟩⟩ 77).battery_capacity_wh = some 77 ∧
    "battery_level_wh" ∉
      (serializeBatteryData (mkBatteryData ⟨⟨55, 0⟩, none, some ⟨-2, 0⟩⟩ 77)).map Prod.fst ∧
    "reference_air_density" ∉
      (serializeBatteryData (mkBatteryData ⟨⟨55, 0⟩, none, some ⟨-2, 0⟩⟩ 77)).map Prod.fst :=
  fetch_data_frame_fields
    ⟨[[⟨0, WICAN_NOTIFY_UUID⟩, ⟨1, WICAN_WRITE_UUID⟩]], true, true,
      NotifOutcome.payload
        (asciiBytes "\x7b\"SOC\": 55, \"OUTDOOR_TEMPERATURE\": -2\x7d")⟩ 77
    (mkBatteryData ⟨⟨55, 0⟩, none, some ⟨-2, 0⟩⟩ 77) (by rfl)

theorem wicanFold_skip_unrecognized (entries : List (String × JVal)) (acc : WicanAcc) :
    wicanFold (entries.filter (fun kv => wicanKeyRecognized kv.1)) acc =
      wicanFold entries acc := by
  induction entries generalizing acc with
  | nil => rfl
  | cons kv rest ih =>
    rcases kv with ⟨k, v⟩
    by_cases hk : wicanKeyRecognized k = true
    · have hk6 : k = "soc" ∨ k = "SOC" ∨ k = "soc_d" ∨ k = "SOC_D" ∨
          k = "outdoor_temperature" ∨ k = "OUTDOOR_TEMPERATURE" := by
        simpa [wicanKeyRecognized, or_assoc] using hk
      rcases hk6 with h | h | h | h | h | h <;> subst h <;>
        obtain ⟨s, d, t⟩ := acc <;>
        cases s <;> cases d <;> cases t <;> cases v <;>
        simp [wicanFold, List.filter_cons, hk, ih]
    · have hk6 : ¬(k = "soc") ∧ ¬(k = "SOC") ∧ ¬(k = "soc_d") ∧ ¬(k = "SOC_D") ∧
          ¬(k = "outdoor_temperature") ∧ ¬(k = "OUTDOOR_TEMPERATURE") := by
        simpa [wicanKeyRecognized, not_or, and_assoc] using hk
      simp [List.filter_cons, hk, wicanFold, hk6.1, hk6.2.1, hk6.2.2.1,
        hk6.2.2.2.1, hk6.2.2.2.2.1, hk6.2.2.2.2.2, ih]

theorem wicanFold_preserves_no_soc (entries : List (String × JVal))
    (acc acc2 : WicanAcc)
    (hno : ∀ kv ∈ entries, kv.1 ≠ "soc" ∧ kv.1 ≠ "SOC")
    (hs : acc.soc = none)
    (h : wicanFold entries acc = Except.ok acc2) : acc2.soc = none := by
  induction entries generalizing acc with
  | nil =>
    simp only [wicanFold, Except.ok.injEq] at h
    exact h ▸ hs
  | cons kv rest ih =>
    rcases kv with ⟨k, v⟩
    obtain ⟨hk1, hk2⟩ := hno (k, v) (by simp)
    have hrest : ∀ kv ∈ rest, kv.1 ≠ "soc" ∧ kv.1 ≠ "SOC" :=
      fun kv hkv => hno kv (by simp [hkv])
    have hfirst : ¬(k = "soc" ∨ k = "SOC") := by tauto
    by_cases h3 : k = "soc_d" ∨ k = "SOC_D"
    · cases hd : acc.soc_d with
      | some x => simp [wicanFold, hfirst, h3, hd] at h
      | none =>
        cases v with
        | null =>
          simp only [wicanFold, if_neg hfirst, if_pos h3, hd] at h
          exact ih { acc with soc_d := some none } hrest (by simpa using hs) h
        | num q =>
          simp only [wicanFold, if_neg hfirst, if_pos h3, hd] at h
          exact ih { acc with soc_d := some (some q) } hrest (by simpa using hs) h
        | bool b => simp [wicanFold, hfirst, h3, hd] at h
        | str s2 => simp [wicanFold, hfirst, h3, hd] at h
        | arr xs => simp [wicanFold, hfirst, h3, hd] at h
        | obj fs => simp [wicanFold, hfirst, h3, hd] at h
    · by_cases h4 : k = "outdoor_temperature" ∨ k = "OUTDOOR_TEMPERATURE"
      · cases hd : acc.outdoor_temperature with
        | some x => simp [wicanFold, hfirst, h3, h4, hd] at h
        | none =>
          cases v with
          | null =>
            simp only [wicanFold, if_neg hfirst, if_neg h3, if_pos h4, hd] at h
            exact ih { acc with outdoor_temperature := some none } hrest
              (by simpa using hs) h
          | num q =>
            simp only [wicanFold, if_neg hfirst, if_neg h3, if_pos h4, hd] at h
            exact ih { acc with outdoor_temperature := some (some q) } hrest
              (by simpa using hs) h
          | bool b => simp [wicanFold, hfirst, h3, h4, hd] at h
          | str s2 => simp [wicanFold, hfirst, h3, h4, hd] at h
          | arr xs => simp [wicanFold, hfirst, h3, h4, hd] at h
          | obj fs => simp [wicanFold, hfirst, h3, h4, hd] at h
      · simp only [wicanFold, if_neg hfirst, if_neg h3, if_neg h4] at h
        exact ih acc hrest hs h

theorem wicanFromStr_missing_soc (s : String) (entries : List (String × JVal))
    (hp : parseJsonText s = Except.ok (JVal.obj entries))
    (hno : ∀ kv ∈ entries, kv.1 ≠ "soc" ∧ kv.1 ≠ "SOC") :
    ∃ msg, wicanFromStr s = Except.error msg := by
  unfold wicanFromStr
  rw [hp]
  cases hf : wicanFold entries ⟨none, none, none⟩ with
  | error e => exact ⟨e, by simp [deserializeWican, hf]⟩
  | ok acc2 =>
    have h2 : acc2.soc = none :=
      wicanFold_preserves_no_soc entries ⟨none, none, none⟩ acc2 hno rfl hf
    exact ⟨"missing field soc", by simp [deserializeWican, hf, h2]⟩

/-- C7 counterexample: a payload whose JSON object carries the single key
soc — lowercase, the Rust field name, which serde accepts besides the
alias SOC — contains no "SOC" key, yet fetch_data succeeds with a reading
instead of failing with a decode error. -/
theorem fetch_data_accepts_lowercase_soc :
    parseJsonText "\x7b\"soc\": 1.0\x7d" =
      Except.ok (JVal.obj [("soc", JVal.num ⟨10, -1⟩)]) ∧
    (fetch_data ⟨[[⟨0, WICAN_NOTIFY_UUID⟩, ⟨1, WICAN_WRITE_UUID⟩]], true, true,
        NotifOutcome.payload (asciiBytes "\x7b\"soc\": 1.0\x7d")⟩ 100).1 =
      Except.ok (some (mkBatteryData ⟨⟨10, -1⟩, none, none⟩ 100)) :=
  ⟨rfl, rfl⟩

/-- C7 amended: during an exchange that delivered a payload, fetch_data
fails with a hard decode error — never the soft no-reading outcome — when
the payload is not valid UTF-8, when the decoded and trimmed text does not
deserialize as the expected JSON value, and in particular when its JSON
object lacks the state-of-charge field under both accepted names ("SOC"
and its Rust field name "soc"); and the deserializer's outcome is
unchanged by dropping every unrecognized key. -/
theorem fetch_data_decode_error_conditions :
    (∀ (env : FetchEnv) (cap : Nat) (bs : List Nat) (pr : GattChar × GattChar),
      find_characteristics env.services = Except.ok pr →
      env.notifyOk = true → env.writeOk = true →
      env.outcome = NotifOutcome.payload bs →
      utf8Decode bs = none →
      (fetch_data env cap).1 = Except.error FetchErr.utf8Error) ∧
    (∀ (env : FetchEnv) (cap : Nat) (bs : List Nat) (pr : GattChar × GattChar)
        (s : String) (e : String),
      find_characteristics env.services = Except.ok pr →
      env.notifyOk = true → env.writeOk = true →
      env.outcome = NotifOutcome.payload bs →
      utf8Decode bs = some s →
      wicanFromStr (rustTrimEnd s) = Except.error e →
      (fetch_data env cap).1 = Except.error (FetchErr.jsonError e)) ∧
    (∀ (env : FetchEnv) (cap : Nat) (bs : List Nat) (pr : GattChar × GattChar)
        (s : String) (entries : List (String × JVal)),
      find_characteristics env.services = Except.ok pr →
      env.notifyOk = true → env.writeOk = true →
      env.outcome = NotifOutcome.payload bs →
      utf8Decode bs = some s →
      parseJsonText (rustTrimEnd s) = Except.ok (JVal.obj entries) →
      (∀ kv ∈ entries, kv.1 ≠ "soc" ∧ kv.1 ≠ "SOC") →
      ∃ e, (fetch_data env cap).1 = Except.error (FetchErr.jsonError e)) ∧
    (∀ (entries : List (String × JVal)) (acc : WicanAcc),
      wicanFold (entries.filter (fun kv => wicanKeyRecognized kv.1)) acc =
        wicanFold entries acc) := by
  refine ⟨?_, ?_, ?_, wicanFold_skip_unrecognized⟩
  · intro env cap bs pr hc hn hw ho hu
    simp [fetch_data, hc, hn, hw, ho, decodeWicanBytes, hu]
  · intro env cap bs pr s e hc hn hw ho hu hj
    simp [fetch_data, hc, hn, hw, ho, decodeWicanBytes, hu, hj]
  · intro env cap bs pr s entries hc hn hw ho hu hp hno
    obtain ⟨msg, hmsg⟩ := wicanFromStr_missing_soc (rustTrimEnd s) entries hp hno
    exact ⟨msg, by simp [fetch_data, hc, hn, hw, ho, decodeWicanBytes, hu, hmsg]⟩

/-- C7 amended, witnessed: an invalid-UTF-8 payload (a lone continuation
byte) yields the UTF-8 decode error; unparseable text yields the JSON
decode error; the empty object, lacking both soc names, yields a decode
error; and dropping the unrecognized key of a concrete object leaves the
deserializer's result unchanged. -/
theorem fetch_data_decode_error_conditions_witness :
    (fetch_data ⟨[[⟨0, WICAN_NOTIFY_UUID⟩, ⟨1, WICAN_WRITE_UUID⟩]], true, true,
        NotifOutcome.payload [0xFF]⟩ 100).1 = Except.error FetchErr.utf8Error ∧
    (fetch_data ⟨[[⟨0, WICAN_NOTIFY_UUID⟩, ⟨1, WICAN_WRITE_UUID⟩]], true, true,
        NotifOutcome.payload (asciiBytes "notjson")⟩ 100).1 =
      Except.error (FetchErr.jsonError "expected value") ∧
    (∃ e, (fetch_data ⟨[[⟨0, WICAN_NOTIFY_UUID⟩, ⟨1, WICAN_WRITE_UUID⟩]], true, true,
        NotifOutcome.payload (asciiBytes "\x7b\x7d")⟩ 100).1 =
      Except.error (FetchErr.jsonError e)) ∧
    wicanFold
        ([("x", JVal.null), ("SOC", JVal.num ⟨1, 0⟩)].filter
          (fun kv => wicanKeyRecognized kv.1)) ⟨none, none, none⟩ =
      wicanFold [("x", JVal.null), ("SOC", JVal.num ⟨1, 0⟩)] ⟨none, none, none⟩ :=
  ⟨fetch_data_decode_error_conditions.1
      ⟨[[⟨0, WICAN_NOTIFY_UUID⟩, ⟨1, WICAN_WRITE_UUID⟩]], true, true,
        NotifOutcome.payload [0xFF]⟩ 100 [0xFF]
      (⟨0, WICAN_NOTIFY_UUID⟩, ⟨1, WICAN_WRITE_UUID⟩) rfl rfl rfl rfl rfl,
    fetch_data_decode_error_conditions.2.1
      ⟨[[⟨0, WICAN_NOTIFY_UUID⟩, ⟨1, WICAN_WRITE_UUID⟩]], true, true,
        NotifOutcome.payload (asciiBytes "notjson")⟩ 100 (asciiBytes "notjson")
      (⟨0, WICAN_NOTIFY_UUID⟩, ⟨1, WICAN_WRITE_UUID⟩) "notjson" "expected value"
      rfl rfl rfl rfl rfl rfl,
    fetch_data_decode_error_conditions.2.2.1
      ⟨[[⟨0, WICAN_NOTIFY_UUID⟩, ⟨1, WICAN_WRITE_UUID⟩]], true, true,
        NotifOutcome.payload (asciiBytes "\x7b\x7d")⟩ 100 (asciiBytes "\x7b\x7d")
      (⟨0, WICAN_NOTIFY_UUID⟩, ⟨1, WICAN_WRITE_UUID⟩) "\x7b\x7d" []
      rfl rfl rfl rfl rfl rfl (by simp),
    fetch_data_decode_error_conditions.2.2.2
      [("x", JVal.null), ("SOC", JVal.num ⟨1, 0⟩)] ⟨none, none, none⟩⟩

theorem connectLoop_cons_fail (ok : Nat → Bool) (rm : Bool) (maxR i : Nat)
    (rest : List Nat) (hi : ok i = false) (hmore : i + 1 < maxR) :
    connectLoop ok rm maxR (i :: rest) =
      ((connectLoop ok rm maxR rest).1,
        ConnEvent.connectAttempt i :: ConnEvent.sleepSecs 10 ::
          (connectLoop ok rm maxR rest).2) := by
  simp [connectLoop, hi, hmore]

theorem connectLoop_all_fail (ok : Nat → Bool) (rm : Bool) (maxR : Nat)
    (hall : ∀ j, j < maxR → ok j = false) :
    ∀ (n s : Nat), s + n = maxR → 1 ≤ n →
      connectLoop ok rm maxR (List.range' s n) =
        ((if rm then Except.error (ConnErr.connectionExhausted maxR)
            else Except.error ConnErr.unpairFailed),
          interleaveAttempts (List.range' s n) ++ [ConnEvent.removeDevice]) := by
  intro n
  induction n with
  | zero => intro s hsum h1; omega
  | succ m ih =>
    intro s hsum h1
    have hs : s < maxR := by omega
    have hoks : ok s = false := hall s hs
    cases m with
    | zero =>
      have hlast : ¬(s + 1 < maxR) := by omega
      cases rm <;>
        simp [List.range', connectLoop, interleaveAttempts, hoks, hlast]
    | succ m2 =>
      have hmore : s + 1 < maxR := by omega
      have ih1 := ih (s + 1) (by omega) (by omega)
      rw [show List.range' s (m2 + 1 + 1) = s :: List.range' (s + 1) (m2 + 1) from rfl,
        connectLoop_cons_fail ok rm maxR s _ hoks hmore, ih1,
        show List.range' (s + 1) (m2 + 1) = (s + 1) :: List.range' (s + 2) m2 from rfl]
      simp [interleaveAttempts]

theorem connectLoop_first_success (ok : Nat → Bool) (rm : Bool) (maxR : Nat) :
    ∀ (k s n : Nat), s + n = maxR → k < n →
      (∀ j, s ≤ j → j < s + k → ok j = false) → ok (s + k) = true →
      connectLoop ok rm maxR (List.range' s n) =
        (Except.ok (), interleaveAttempts (List.range' s (k + 1))) := by
  intro k
  induction k with
  | zero =>
    intro s n hsum hk hfail hok
    cases n with
    | zero => omega
    | succ n2 =>
      rw [show List.range' s (n2 + 1) = s :: List.range' (s + 1) n2 from rfl]
      simp only [connectLoop]
      rw [if_pos (by simpa using hok)]
      simp [List.range', interleaveAttempts]
  | succ k2 ih =>
    intro s n hsum hk hfail hok
    cases n with
    | zero => omega
    | succ n2 =>
      have hoks : ok s = false := hfail s (by omega) (by omega)
      have hmore : s + 1 < maxR := by omega
      have ih1 := ih (s + 1) n2 (by omega) (by omega)
        (fun j h1 h2 => hfail j (by omega) (by omega))
        (by have h12 : s + 1 + k2 = s + (k2 + 1) := by omega
            rw [h12]; exact hok)
      rw [show List.range' s (n2 + 1) = s :: List.range' (s + 1) n2 from rfl,
        connectLoop_cons_fail ok rm maxR s _ hoks hmore, ih1,
        show List.range' s (k2 + 1 + 1) = s :: List.range' (s + 1) (k2 + 1) from rfl,
        show List.range' (s + 1) (k2 + 1) = (s + 1) :: List.range' (s + 2) k2 from rfl]
      simp [interleaveAttempts]

/-- C3 counterexample: with max_retries = 0 and a device that is paired
but NOT connected (the is_connected query answers false) and whose every
connect attempt would fail, connect_to_device still returns the device —
the for-loop over 0..0 never runs and the function falls through to
Ok(device) — instead of failing with the exhaustion error after zero
attempts as the claim requires for N = 0. -/
theorem connect_to_device_zero_retries_returns_unconnected :
    connect_to_device
        ⟨⟨true, Except.ok true, true, []⟩, ⟨Except.ok true, true, true⟩,
          Except.ok false, fun _ => false, true⟩ 7 0 =
      (Except.ok 7, []) := rfl

/-- C3 amended (max retry count N ≥ 1): connect_to_device returns a
device only if it was already connected or one of the at most N attempts
succeeded; when already connected it returns immediately with no
attempts; when every one of the N attempts fails (and the removal call
succeeds) it fails with the exhaustion error carrying N, after exactly
the trace of N attempts separated by 10-second sleeps with no sleep
after the last; and when the first k attempts fail and attempt k
succeeds it returns the device after exactly the attempts 0..k separated
by the sleeps. -/
theorem connect_to_device_retry_contract (env : ConnectEnv) (mac N : Nat)
    (hN : 1 ≤ N) :
    (∀ d, (connect_to_device env mac N).1 = Except.ok d →
      env.isConnected = Except.ok true ∨ ∃ i, i < N ∧ env.connectOk i = true) ∧
    (∀ d, (find_device env.locator mac).1 = Except.ok d →
      (try_pair env.pairing).1 = Except.ok () →
      env.isConnected = Except.ok true →
      connect_to_device env mac N = (Except.ok d, [])) ∧
    (∀ d, (find_device env.locator mac).1 = Except.ok d →
      (try_pair env.pairing).1 = Except.ok () →
      env.isConnected = Except.ok false →
      (∀ i, i < N → env.connectOk i = false) →
      env.removeOk = true →
      connect_to_device env mac N =
        (Except.error (ConnErr.connectionExhausted N), failTrace N)) ∧
    (∀ d k, (find_device env.locator mac).1 = Except.ok d →
      (try_pair env.pairing).1 = Except.ok () →
      env.isConnected = Except.ok false →
      (∀ j, j < k → env.connectOk j = false) →
      env.connectOk k = true → k < N →
      connect_to_device env mac N = (Except.ok d, succTrace k)) := by
  refine ⟨?_, ?_, ?_, ?_⟩
  · intro d h
    cases hf : (find_device env.locator mac).1 with
    | error e => simp [connect_to_device, hf] at h
    | ok dev =>
      cases hp : (try_pair env.pairing).1 with
      | error e => simp [connect_to_device, hf, hp] at h
      | ok u =>
        cases hc : env.isConnected with
        | error e => simp [connect_to_device, hf, hp, hc] at h
        | ok b =>
          cases b with
          | true => left; rfl
          | false =>
            by_cases hex : ∃ i, i < N ∧ env.connectOk i = true
            · right; exact hex
            · exfalso
              push_neg at hex
              have hall : ∀ i, i < N → env.connectOk i = false := by
                intro i hi
                cases hb : env.connectOk i with
                | false => rfl
                | true => exact absurd hb (hex i hi)
              have hl := connectLoop_all_fail env.connectOk env.removeOk N hall N 0
                (by omega) hN
              simp only [connect_to_device, hf, hp, hc, List.range_eq_range'] at h
              rw [hl] at h
              cases hrm : env.removeOk <;> rw [hrm] at h <;> simp [Except.map] at h
  · intro d hf hp hc
    simp [connect_to_device, hf, hp, hc]
  · intro d hf hp hc hall hrm
    have hl := connectLoop_all_fail env.connectOk env.removeOk N hall N 0 (by omega) hN
    simp only [connect_to_device, hf, hp, hc, failTrace, List.range_eq_range']
    rw [hl]
    simp [hrm, Except.map]
  · intro d k hf hp hc hfail hok hkN
    have hl := connectLoop_first_success env.connectOk env.removeOk N k 0 N
      (by omega) hkN (fun j h1 h2 => hfail j (by omega)) (by simpa using hok)
    simp only [connect_to_device, hf, hp, hc, succTrace, List.range_eq_range']
    rw [hl]
    simp [Except.map]

/-- C3 amended, witnessed with N = 3: an environment whose attempts 0
fails and 1 succeeds yields the device after the trace attempt 0, sleep,
attempt 1; and an all-fail environment with N = 2 yields the exhaustion
error after attempt 0, sleep, attempt 1, removal. -/
theorem connect_to_device_retry_contract_witness :
    connect_to_device
        ⟨⟨true, Except.ok true, true, []⟩, ⟨Except.ok true, true, true⟩,
          Except.ok false, fun i => decide (i = 1), true⟩ 7 3 =
      (Except.ok 7, succTrace 1) ∧
    connect_to_device
        ⟨⟨true, Except.ok true, true, []⟩, ⟨Except.ok true, true, true⟩,
          Except.ok false, fun _ => false, true⟩ 7 2 =
      (Except.error (ConnErr.connectionExhausted 2), failTrace 2) :=
  ⟨(connect_to_device_retry_contract
      ⟨⟨true, Except.ok true, true, []⟩, ⟨Except.ok true, true, true⟩,
        Except.ok false, fun i => decide (i = 1), true⟩ 7 3 (by omega)).2.2.2 7 1
      rfl rfl rfl
      (fun j hj => by
        have hj0 : j = 0 := by omega
        subst hj0; rfl)
      rfl (by omega),
    (connect_to_device_retry_contract
      ⟨⟨true, Except.ok true, true, []⟩, ⟨Except.ok true, true, true⟩,
        Except.ok false, fun _ => false, true⟩ 7 2 (by omega)).2.2.1 7
      rfl rfl rfl (fun i hi => rfl) rfl⟩

/-- C4: when the device is not connected and every one of the N attempts
(N ≥ 1) fails, the pairing-record removal is invoked as the final effect
before the function returns: with the removal succeeding the result is
the exhaustion error and the trace ends in the removal event; with the
removal itself failing the secondary unpair error is surfaced instead
(the wrapped remove_device error), the effect trace being the same. -/
theorem connect_exhaustion_unpairs_before_error (env : ConnectEnv)
    (mac N d : Nat) (hN : 1 ≤ N)
    (hf : (find_device env.locator mac).1 = Except.ok d)
    (hp : (try_pair env.pairing).1 = Except.ok ())
    (hc : env.isConnected = Except.ok false)
    (hall : ∀ i, i < N → env.connectOk i = false) :
    (env.removeOk = true →
      connect_to_device env mac N =
        (Except.error (ConnErr.connectionExhausted N), failTrace N) ∧
      (failTrace N).getLast? = some ConnEvent.removeDevice) ∧
    (env.removeOk = false →
      connect_to_device env mac N =
        (Except.error ConnErr.unpairFailed, failTrace N) ∧
      (failTrace N).getLast? = some ConnEvent.removeDevice) := by
  have hl := connectLoop_all_fail env.connectOk env.removeOk N hall N 0 (by omega) hN
  have hlast : (failTrace N).getLast? = some ConnEvent.removeDevice := by
    unfold failTrace
    exact List.getLast?_concat _
  constructor
  · intro hrm
    refine ⟨?_, hlast⟩
    simp only [connect_to_device, hf, hp, hc, failTrace, List.range_eq_range']
    rw [hl]
    simp [hrm, Except.map]
  · intro hrm
    refine ⟨?_, hlast⟩
    simp only [connect_to_device, hf, hp, hc, failTrace, List.range_eq_range']
    rw [hl]
    simp [hrm, Except.map]

/-- C4 witnessed with N = 2 in both removal outcomes: removal succeeding
gives the exhaustion error with the removal as last effect; removal
failing gives the unpair error. -/
theorem connect_exhaustion_unpairs_before_error_witness :
    (connect_to_device
        ⟨⟨true, Except.ok true, true, []⟩, ⟨Except.ok true, true, true⟩,
          Except.ok false, fun _ => false, true⟩ 7 2 =
      (Except.error (ConnErr.connectionExhausted 2), failTrace 2) ∧
      (failTrace 2).getLast? = some ConnEvent.removeDevice) ∧
    connect_to_device
        ⟨⟨true, Except.ok true, true, []⟩, ⟨Except.ok true, true, true⟩,
          Except.ok false, fun _ => false, false⟩ 7 2 =
      (Except.error ConnErr.unpairFailed, failTrace 2) :=
  ⟨(connect_exhaustion_unpairs_before_error
      ⟨⟨true, Except.ok true, true, []⟩, ⟨Except.ok true, true, true⟩,
        Except.ok false, fun _ => false, true⟩ 7 2 7 (by omega)
      rfl rfl rfl (fun i hi => rfl)).1 rfl,
    ((connect_exhaustion_unpairs_before_error
      ⟨⟨true, Except.ok true, true, []⟩, ⟨Except.ok true, true, true⟩,
        Except.ok false, fun _ => false, false⟩ 7 2 7 (by omega)
      rfl rfl rfl (fun i hi => rfl)).2 rfl).1⟩
